import Mathlib

/-!
Verification of the provider/event-relay subsystem of the giphy-connector
repository against its natural-language specification.

The Go sources are embedded shallowly:
  connector-go/model.go            -> Configuration, Installation, ThingMapping, Instance
  connector-go/messages.go         -> ActionRequest, ActionResponse
  connector-go/provider.go         -> UpdateEvent, ActionEvent, PropertyUpdateEvent
  connector-go/provider/default_provider.go -> DefaultProvider and its methods
  connector-go/service/default_service.go   -> DefaultConnectorService operations
  connector-go/handlers.go, crypto/signing.go -> signature validation handler
  giphy.go (final generation)      -> setApiKey, getRandomGif, getSearchResult,
                                      periodicUpdate body, actionHandler body
  main.go (earlier generation)     -> Handler.RequestAction

Go maps are modelled as functions into Option, buffered channels as FIFO
lists, the external Giphy API as an oracle function parameter, and a Go
mutation performed by a method plus its returned error as a pair of new state and
Option String.  A run-time panic (out-of-range index) is modelled as the
absence of a result (none).
-/

namespace GiphyConn

/-- Configuration is a key value pair (connector-go/model.go). -/
structure Configuration where
  id : String
  value : String
deriving DecidableEq

/-- Installation with its token and configuration (connector-go/model.go). -/
structure Installation where
  id : String
  token : String
  configuration : List Configuration
deriving DecidableEq

/-- GetConfig returns the first configuration parameter with the given ID,
or none if absent (connector-go/model.go, Installation.GetConfig). -/
def Installation.GetConfig (i : Installation) (cid : String) : Option Configuration :=
  i.configuration.find? (fun c => c.id == cid)

/-- ThingMapping maps an instance to a thing (connector-go/model.go). -/
structure ThingMapping where
  instanceID : String
  thingID : String
  externalID : String
deriving DecidableEq

/-- Instance with its owning installation, token, thing mappings and
configuration (connector-go/model.go). -/
structure Instance where
  id : String
  installationID : String
  token : String
  thingMapping : List ThingMapping
  configuration : List Configuration
deriving DecidableEq

/-- Action request status (restapi-go); PENDING, COMPLETED or FAILED. -/
inductive ActionRequestStatus where
  | pending
  | completed
  | failed
deriving DecidableEq

/-- ActionRequest sent by the platform to trigger an action
(connector-go/messages.go).  The Go Parameters map is an association list;
indexing a Go map yields the zero value for missing keys. -/
structure ActionRequest where
  id : String
  thingID : String
  componentID : String
  actionID : String
  status : ActionRequestStatus
  parameters : List (String × String)
deriving DecidableEq

/-- Go map indexing with the string zero value for absent keys. -/
def paramGet (params : List (String × String)) (k : String) : String :=
  match params.find? (fun kv => kv.1 == k) with
  | some kv => kv.2
  | none => ""

/-- ActionResponse informing the platform about the state of an action
(connector-go/messages.go). -/
structure ActionResponse where
  id : String
  status : ActionRequestStatus
  error : String
deriving DecidableEq

/-- ActionEvent propagates an action request result (connector-go/provider.go). -/
structure ActionEvent where
  instanceId : String
  requestId : String
  response : ActionResponse
deriving DecidableEq

/-- PropertyUpdateEvent propagates a property update (connector-go/provider.go). -/
structure PropertyUpdateEvent where
  thingId : String
  instanceId : String
  componentId : String
  propertyId : String
  value : String
deriving DecidableEq

/-- UpdateEvent is pushed to the update channel; it may carry an action
event, a property update, or both (connector-go/provider.go). -/
structure UpdateEvent where
  actionEvent : Option ActionEvent
  propertyUpdateEvent : Option PropertyUpdateEvent
deriving DecidableEq

/-- PendingAction pairs an action request with the owning instance snapshot
(provider/default_provider.go). -/
structure PendingAction where
  ActionRequest : ActionRequest
  Instance : Instance
deriving DecidableEq

/-- State of the embeddable default provider
(provider/default_provider.go).  The Go map of installations is a function
into Option; both buffered channels appear as FIFO lists. -/
structure DefaultProvider where
  Installations : String → Option Installation
  Instances : List Instance
  actionChannel : List PendingAction
  updateChannel : List UpdateEvent
  newInstances : List Instance
  instancesToRemove : List String
  newInstallations : List Installation
  installationsToRemove : List String

/-- Empty provider as produced by provider.New(). -/
def DefaultProvider.New : DefaultProvider where
  Installations := fun _ => none
  Instances := []
  actionChannel := []
  updateChannel := []
  newInstances := []
  instancesToRemove := []
  newInstallations := []
  installationsToRemove := []

/-- Insertion into the Go installations map (p.Installations[id] = inst). -/
def mapInsert (m : String → Option Installation) (k : String) (v : Installation) :
    String → Option Installation :=
  fun x => if x = k then some v else m x

/-- Deletion from the Go installations map (delete(p.Installations, id)). -/
def mapDelete (m : String → Option Installation) (k : String) :
    String → Option Installation :=
  fun x => if x = k then none else m x

/-- Loop inserting a list of installations into the map, keyed by their
ids, in order (the body of AddNewInstallations). -/
def insertAll (m : String → Option Installation) (l : List Installation) :
    String → Option Installation :=
  l.foldl (fun m inst => mapInsert m inst.id inst) m

/-- Last element of the list whose id equals the key, if any. -/
def lastWith : List Installation → String → Option Installation
  | [], _ => none
  | a :: t, k =>
      match lastWith t k with
      | some v => some v
      | none => if a.id = k then some a else none

/-- Index search over the instances slice, returning -1 when the id is
absent (provider/default_provider.go, findIndex). -/
def findIndexAux (instanceId : String) : List Instance → Int → Int
  | [], _ => -1
  | i :: rest, acc =>
      if i.id = instanceId then acc else findIndexAux instanceId rest (acc + 1)

/-- findIndex returns the index of the instance with the given id, or -1
(provider/default_provider.go). -/
def findIndex (instances : List Instance) (instanceId : String) : Int :=
  findIndexAux instanceId instances 0

/-- remove swaps the element at the given index with the last element and
drops the last element (provider/default_provider.go, remove). -/
def removeAt (instances : List Instance) (index : Nat) : List Instance :=
  match instances.getLast? with
  | none => []
  | some last => (instances.set index last).dropLast

namespace DefaultProvider

/-- RegisterInstances appends to the pending-add list and never errors. -/
def RegisterInstances (p : DefaultProvider) (instances : List Instance) :
    DefaultProvider × Option String :=
  ({ p with newInstances := p.newInstances ++ instances }, none)

/-- RemoveInstance stages the id for removal when it is live, otherwise
returns the error "instance not found" and leaves the state untouched. -/
def RemoveInstance (p : DefaultProvider) (instanceId : String) :
    DefaultProvider × Option String :=
  if findIndex p.Instances instanceId > -1 then
    ({ p with instancesToRemove := p.instancesToRemove ++ [instanceId] }, none)
  else
    (p, some "instance not found")

/-- RegisterInstallations appends to the pending-add list and never errors. -/
def RegisterInstallations (p : DefaultProvider) (installations : List Installation) :
    DefaultProvider × Option String :=
  ({ p with newInstallations := p.newInstallations ++ installations }, none)

/-- RemoveInstallation stages the id for removal when it is in the live
map, otherwise returns the error "installation not found". -/
def RemoveInstallation (p : DefaultProvider) (installationId : String) :
    DefaultProvider × Option String :=
  match p.Installations installationId with
  | none => (p, some "installation not found")
  | some _ =>
      ({ p with installationsToRemove := p.installationsToRemove ++ [installationId] }, none)

/-- ActionEvent publishes a pending action on the action channel. -/
def ActionEvent (p : DefaultProvider) (action : PendingAction) : DefaultProvider :=
  { p with actionChannel := p.actionChannel ++ [action] }

/-- RequestAction of the default provider sends every action request to the
action channel and returns status Pending with a nil error. -/
def RequestAction (p : DefaultProvider) (inst : Instance)
    (actionRequest : ActionRequest) :
    (ActionRequestStatus × Option String) × DefaultProvider :=
  ((ActionRequestStatus.pending, none), p.ActionEvent ⟨actionRequest, inst⟩)

/-- AddNewInstallations inserts all staged installations into the live map.
Faithful to the source: the newInstallations list is NOT cleared. -/
def AddNewInstallations (p : DefaultProvider) : DefaultProvider :=
  { p with Installations := insertAll p.Installations p.newInstallations }

/-- RemoveInstallations deletes all staged ids from the live map and clears
the staging list; missing ids are ignored. -/
def RemoveInstallations (p : DefaultProvider) : DefaultProvider :=
  { p with
    Installations :=
      p.installationsToRemove.foldl (fun m k => mapDelete m k) p.Installations,
    installationsToRemove := [] }

/-- RemoveInstances removes all staged instances from the live slice via
swap-with-last and clears the staging list; missing ids are ignored. -/
def RemoveInstances (p : DefaultProvider) : DefaultProvider :=
  { p with
    Instances :=
      p.instancesToRemove.foldl
        (fun insts instId =>
          let index := findIndex insts instId
          if index > -1 then removeAt insts index.toNat else insts)
        p.Instances,
    instancesToRemove := [] }

/-- AddNewInstances appends all staged instances to the live slice and
clears the staging list. -/
def AddNewInstances (p : DefaultProvider) : DefaultProvider :=
  { p with Instances := p.Instances ++ p.newInstances, newInstances := [] }

/-- Update applies the staged mutations: remove instances, add instances,
remove installations, add installations (provider/default_provider.go). -/
def Update (p : DefaultProvider) : DefaultProvider :=
  (((p.RemoveInstances).AddNewInstances).RemoveInstallations).AddNewInstallations

end DefaultProvider

/-- Component and property identifiers of the giphy connector (model.go). -/
def RandomComponentId : String := "random"

/-- Property identifier of the random component (model.go). -/
def RandomPropertyId : String := "value"

/-- Component identifier of the search component (model.go). -/
def SearchComponentId : String := "search"

/-- Property identifier of the search component (model.go). -/
def SearchPropertyId : String := "value"

/-- setApiKey resolves the giphy API key of the given installation; it
fails when the installation is not registered or the configuration entry
giphy_api_key is absent (giphy.go, setApiKey).  The mutation of the shared
APIKey field of the shared client is modelled by returning the key to the oracle call
made inside the same critical section. -/
def setApiKey (installations : String → Option Installation)
    (installationId : String) : Except String String :=
  match installations installationId with
  | none => Except.error "installation not registered"
  | some installation =>
      match installation.GetConfig "giphy_api_key" with
      | none => Except.error "could not find api key"
      | some key => Except.ok key.value

/-- getRandomGif sets the API key for the installation owning the instance and asks
the external API for a random gif URL (giphy.go, getRandomGif).  The
external call is the oracle randomOracle, keyed by the API key. -/
def getRandomGif (installations : String → Option Installation)
    (randomOracle : String → Except String String) (inst : Instance) :
    Except String String :=
  match setApiKey installations inst.installationID with
  | Except.error e => Except.error e
  | Except.ok apiKey => randomOracle apiKey

/-- getSearchResult sets the API key and searches for the keyword with
limit 1; an empty result list yields the error "no search result found"
(giphy.go, getSearchResult).  The oracle returns the Data list of URLs. -/
def getSearchResult (installations : String → Option Installation)
    (searchOracle : String → String → Except String (List String))
    (inst : Instance) (keyword : String) : Except String String :=
  match setApiKey installations inst.installationID with
  | Except.error e => Except.error e
  | Except.ok apiKey =>
      match searchOracle apiKey keyword with
      | Except.error e => Except.error e
      | Except.ok data =>
          match data with
          | [] => Except.error "no search result found"
          | url :: _ => Except.ok url

/-- Body of one instance step of the polling loop (giphy.go,
periodicUpdate): an instance with no thing mapping is skipped with a
diagnostic, a failing getRandomGif is skipped, and a success emits one
property update event. -/
def pollInstance (installations : String → Option Installation)
    (randomOracle : String → Except String String) (inst : Instance) :
    Option UpdateEvent :=
  match inst.thingMapping with
  | [] => none
  | tm :: _ =>
      match getRandomGif installations randomOracle inst with
      | Except.error _ => none
      | Except.ok randomGif =>
          some
            { actionEvent := none,
              propertyUpdateEvent :=
                some
                  { instanceId := inst.id, thingId := tm.thingID,
                    componentId := RandomComponentId,
                    propertyId := RandomPropertyId, value := randomGif } }

/-- Events emitted by one polling cycle (giphy.go, periodicUpdate): apply
the staged registry mutations with Update, then process every live
instance in order. -/
def pollCycle (p : DefaultProvider)
    (randomOracle : String → Except String String) : List UpdateEvent :=
  let q := p.Update
  q.Instances.filterMap (pollInstance q.Installations randomOracle)

/-- Handling of one dequeued pending action (giphy.go, actionHandler).
The switch on the action identifier has the single case "search" and a
default emitting a Failed status with "Action not supported".  On a
successful search the handler reads ThingMapping[0] without a bounds
check; with an empty mapping the Go code panics before emitting, which is
modelled as none. -/
def actionStep (installations : String → Option Installation)
    (searchOracle : String → String → Except String (List String))
    (pa : PendingAction) : Option UpdateEvent :=
  if pa.ActionRequest.actionID = "search" then
    match getSearchResult installations searchOracle pa.Instance
        (paramGet pa.ActionRequest.parameters "keyword") with
    | Except.error e =>
        some
          { actionEvent :=
              some
                { instanceId := pa.Instance.id, requestId := pa.ActionRequest.id,
                  response :=
                    { id := "", status := ActionRequestStatus.failed, error := e } },
            propertyUpdateEvent := none }
    | Except.ok result =>
        match pa.Instance.thingMapping with
        | [] => none
        | tm :: _ =>
            some
              { actionEvent :=
                  some
                    { instanceId := pa.Instance.id, requestId := pa.ActionRequest.id,
                      response :=
                        { id := "", status := ActionRequestStatus.completed,
                          error := "" } },
                propertyUpdateEvent :=
                  some
                    { thingId := tm.thingID, instanceId := pa.Instance.id,
                      componentId := SearchComponentId,
                      propertyId := SearchPropertyId, value := result } }
  else
    some
      { actionEvent :=
          some
            { instanceId := pa.Instance.id, requestId := pa.ActionRequest.id,
              response :=
                { id := "", status := ActionRequestStatus.failed,
                  error := "Action not supported" } },
        propertyUpdateEvent := none }

/-- State of the earlier-generation giphy provider (main.go, Handler).
Only the fields touched by the embedded operations are modelled. -/
structure Handler where
  actionChannel : List PendingAction
  instances : List Instance
  newInstances : List Instance
  installations : String → Option Installation

namespace Handler

/-- RequestAction of the earlier-generation Handler (main.go): actionId
"search" enqueues a pending action and returns Pending; any other actionId
returns Failed with the error "action not supported" and does not touch
the action channel. -/
def RequestAction (h : Handler) (inst : Instance)
    (actionRequest : ActionRequest) :
    (ActionRequestStatus × Option String) × Handler :=
  if actionRequest.actionID = "search" then
    ((ActionRequestStatus.pending, none),
      { h with actionChannel := h.actionChannel ++ [⟨actionRequest, inst⟩] })
  else
    ((ActionRequestStatus.failed, some "action not supported"), h)

end Handler

namespace DefaultConnectorService

/-- RemoveInstallation of the default connector service
(service/default_service.go): first remove from the provider, where an
error is only logged, then delete from the database; a database error is
returned to the caller.  The database is the external collaborator
dbRemove. -/
def RemoveInstallation (p : DefaultProvider)
    (dbRemove : String → Except String Unit) (installationId : String) :
    DefaultProvider × Option String :=
  let pr := p.RemoveInstallation installationId
  match dbRemove installationId with
  | Except.error e => (pr.1, some e)
  | Except.ok _ => (pr.1, none)

/-- PerformAction of the default connector service
(service/default_service.go): look up the owning instance by thing ID; a
miss yields a Failed ActionResponse with "thing ID was not found at
connector" and a nil error; otherwise delegate to the provider method
RequestAction and map the returned status. -/
def PerformAction (p : DefaultProvider)
    (getInstanceByThingId : String → Option Instance)
    (actionRequest : ActionRequest) :
    (Option ActionResponse × Option String) × DefaultProvider :=
  match getInstanceByThingId actionRequest.thingID with
  | none =>
      ((some
          { id := "", status := ActionRequestStatus.failed,
            error := "thing ID was not found at connector" }, none), p)
  | some inst =>
      let r := p.RequestAction inst actionRequest
      match r.1.2 with
      | some e => ((some { id := "", status := r.1.1, error := e }, some e), r.2)
      | none =>
          match r.1.1 with
          | ActionRequestStatus.completed => ((none, none), r.2)
          | ActionRequestStatus.pending =>
              ((some { id := "", status := ActionRequestStatus.pending, error := "" },
                none), r.2)
          | ActionRequestStatus.failed => ((none, none), r.2)

end DefaultConnectorService

/-- Outcome of an HTTP handler: an error response written by writeError, a
JSON response with a status code, or a bodyless status code. -/
inductive HttpOut where
  | errorResp (status : Nat) (message : String)
  | jsonResp (status : Nat) (body : ActionResponse)
  | noContent (status : Nat)
deriving DecidableEq

/-- HTTP PerformAction handler (connector-go/handlers.go, PerformAction):
service errors are written by writeError (plain errors become 500), a
non-nil response is answered 200 with the JSON body after filling an empty
response ID with the request ID, and a nil response is answered 204. -/
def PerformActionHandler (p : DefaultProvider)
    (getInstanceByThingId : String → Option Instance)
    (req : ActionRequest) : HttpOut :=
  let r := DefaultConnectorService.PerformAction p getInstanceByThingId req
  match r.1.2 with
  | some e => HttpOut.errorResp 500 e
  | none =>
      match r.1.1 with
      | some response =>
          HttpOut.jsonResp 200
            (if response.id = "" then { response with id := req.id } else response)
      | none => HttpOut.noContent 204

/-- Standard base64 alphabet used by the Go encoding/base64 StdEncoding. -/
def b64Alphabet : List Char :=
  "ABCDEFGHIJKLMNOPQRSTUVWXYZabcdefghijklmnopqrstuvwxyz0123456789+/".toList

/-- Index of a character in the standard base64 alphabet. -/
def b64Index (c : Char) : Option Nat :=
  b64Alphabet.indexOf? c

/-- Block-wise standard base64 decoding of a character list: blocks of
four characters, optional padding of one or two = characters only in the
final block; any other shape is a decode error (Go StdEncoding). -/
def decodeB64Chars : List Char → Option (List Nat)
  | [] => some []
  | c1 :: c2 :: c3 :: c4 :: rest =>
      match b64Index c1, b64Index c2 with
      | some a, some b =>
          if c3 = '=' then
            if c4 = '=' ∧ rest = [] then some [a * 4 + b / 16] else none
          else
            match b64Index c3 with
            | some c =>
                if c4 = '=' then
                  if rest = [] then some [a * 4 + b / 16, b % 16 * 16 + c / 4]
                  else none
                else
                  match b64Index c4 with
                  | some d =>
                      match decodeB64Chars rest with
                      | some tail =>
                          some ((a * 4 + b / 16) :: (b % 16 * 16 + c / 4) ::
                            (c % 4 * 64 + d) :: tail)
                      | none => none
                  | none => none
            | none => none
      | _, _ => none
  | _ => none

/-- base64.StdEncoding.DecodeString: none models a CorruptInputError. -/
def base64Decode (s : String) : Option (List Nat) :=
  decodeB64Chars s.toList

/-- Go http.Header.Get: the header value, or the empty string if absent. -/
def headerGet (headers : List (String × String)) (k : String) : String :=
  match headers.find? (fun kv => kv.1 == k) with
  | some kv => kv.2
  | none => ""

/-- Inbound HTTP request as seen by the signature validation handler. -/
structure HttpRequest where
  method : String
  host : String
  requestURI : String
  headers : List (String × String)
  body : String
deriving DecidableEq

/-- Parameters relevant for signature validation (connector-go/handlers.go,
ValidationParameters). -/
structure ValidationParameters where
  Scheme : String
  Host : String
  RequestURI : String
deriving DecidableEq

/-- DefaultValidationPreProcessor: scheme https, host and request URI taken
from the request (connector-go/handlers.go). -/
def DefaultValidationPreProcessor (r : HttpRequest) : ValidationParameters :=
  { Scheme := "https", Host := r.host, RequestURI := r.requestURI }

/-- Error of crypto.SignablePayload: the only error case is a missing
required header (crypto/signing.go, ErrorMissingHeader). -/
inductive CryptoErr where
  | missingHeader
deriving DecidableEq

/-- Headers included in the canonical representation, in order
(crypto/signing.go, signedHeaderKeys). -/
def signedHeaderKeys : List String := ["Date"]

/-- Fragment of the signable payload built from the required headers; an
empty header value aborts with ErrorMissingHeader (crypto/signing.go). -/
def headersFragment (headers : List (String × String)) :
    List String → Except CryptoErr String
  | [] => Except.ok ""
  | k :: ks =>
      let value := headerGet headers k
      if value = "" then Except.error CryptoErr.missingHeader
      else
        match headersFragment headers ks with
        | Except.error e => Except.error e
        | Except.ok rest =>
            Except.ok ("(" ++ k ++ "):" ++ value ++ "\r\n" ++ rest)

/-- SignablePayload builds the canonical representation
(method):m CRLF (url):scheme://host uri CRLF (Date):v CRLF (body):body
(crypto/signing.go, SignablePayload). -/
def SignablePayload (method scheme host requestURI : String)
    (headers : List (String × String)) (body : String) :
    Except CryptoErr String :=
  match headersFragment headers signedHeaderKeys with
  | Except.error e => Except.error e
  | Except.ok hf =>
      Except.ok
        ("(method):" ++ method ++ "\r\n" ++
          "(url):" ++ scheme ++ "://" ++ host ++ requestURI ++ "\r\n" ++
          hf ++ "(body):" ++ body)

/-- Result of the signature validation handler: either an error response
with its code and HTTP status, or the invocation of the wrapped handler. -/
inductive HandlerResult where
  | response (errorCode : String) (status : Nat)
  | next (body : String)
deriving DecidableEq

/-- ServeHTTP of signatureValidationHandler (connector-go/handlers.go):
base64-decode the Signature header (failure: BAD_SIGNATURE 400), build the
canonical payload (missing required header: MISSING_HEADER 400), verify
the signature (failure: BAD_SIGNATURE 400), and only then invoke the
wrapped handler.  Verification against the fixed public key is the
abstract predicate verify. -/
def ServeHTTP (verify : String → List Nat → Bool)
    (pre : HttpRequest → ValidationParameters) (r : HttpRequest) :
    HandlerResult :=
  let signature := headerGet r.headers "Signature"
  match base64Decode signature with
  | none => HandlerResult.response "BAD_SIGNATURE" 400
  | some decodedSignature =>
      let ev := pre r
      match SignablePayload r.method ev.Scheme ev.Host ev.RequestURI
          r.headers r.body with
      | Except.error CryptoErr.missingHeader =>
          HandlerResult.response "MISSING_HEADER" 400
      | Except.ok signaturePayload =>
          if verify signaturePayload decodedSignature then
            HandlerResult.next r.body
          else
            HandlerResult.response "BAD_SIGNATURE" 400

/-- Request with no headers at all. -/
def noHeadersReq : HttpRequest :=
  { method := "POST", host := "h", requestURI := "/x", headers := [], body := "" }

/-- Request whose Signature header is not valid base64 and whose Date
header is absent. -/
def sigBadReq : HttpRequest :=
  { method := "POST", host := "h", requestURI := "/x",
    headers := [("Signature", "!")], body := "" }

/-- Request with a Date header and an absent Signature header. -/
def dateReq : HttpRequest :=
  { method := "POST", host := "h", requestURI := "/x",
    headers := [("Date", "today")], body := "" }

/-- Sample configuration entry holding the giphy API key. -/
def sampleConfig : Configuration := { id := "giphy_api_key", value := "abc" }

/-- Sample installation carrying the API key configuration. -/
def sampleInstallation : Installation :=
  { id := "inst-1", token := "tok", configuration := [sampleConfig] }

/-- Sample thing mapping. -/
def sampleMapping : ThingMapping :=
  { instanceID := "i-1", thingID := "thing-1", externalID := "" }

/-- Sample instance with one thing mapping, owned by sampleInstallation. -/
def sampleInstance : Instance :=
  { id := "i-1", installationID := "inst-1", token := "tok2",
    thingMapping := [sampleMapping], configuration := [] }

/-- Instance with an empty thing-mapping list. -/
def bareInstance : Instance :=
  { id := "i-2", installationID := "inst-1", token := "tok3",
    thingMapping := [], configuration := [] }

/-- Live installations map holding only sampleInstallation. -/
def sampleInstalls : String → Option Installation :=
  fun k => if k = "inst-1" then some sampleInstallation else none

/-- Search oracle that always returns one result URL. -/
def okSearchOracle : String → String → Except String (List String) :=
  fun _ _ => Except.ok ["url-1"]

/-- Random-gif oracle that always succeeds. -/
def okRandomOracle : String → Except String String :=
  fun _ => Except.ok "gif-1"

/-- Action request with actionId search. -/
def searchRequest : ActionRequest :=
  { id := "req-1", thingID := "thing-1", componentID := "search",
    actionID := "search", status := ActionRequestStatus.pending,
    parameters := [("keyword", "cats")] }

/-- Action request with an unsupported actionId. -/
def otherRequest : ActionRequest :=
  { id := "req-2", thingID := "thing-1", componentID := "search",
    actionID := "toggle", status := ActionRequestStatus.pending,
    parameters := [] }

/-- Provider state with one live instance and one live installation. -/
def c6Provider : DefaultProvider :=
  { DefaultProvider.New with
    Instances := [sampleInstance], Installations := sampleInstalls }

/-- Provider state after registering sampleInstallation and applying the
staged mutations once. -/
def c1AfterFirstUpdate : DefaultProvider :=
  (DefaultProvider.New.RegisterInstallations [sampleInstallation]).1.Update

/-- Provider state after additionally removing the installation and
applying the staged mutations a second time. -/
def c1AfterSecondUpdate : DefaultProvider :=
  ((c1AfterFirstUpdate.RemoveInstallation "inst-1").1).Update

/-- findIndexAux yields -1 exactly when no instance in the list has the
searched id, for non-negative accumulators. -/
theorem findIndexAux_eq_neg_one_iff (instanceId : String) :
    ∀ (l : List Instance) (acc : Int), 0 ≤ acc →
      (findIndexAux instanceId l acc = -1 ↔ ∀ i ∈ l, i.id ≠ instanceId) := by
  intro l
  induction l with
  | nil => intro acc _; simp [findIndexAux]
  | cons a t ih =>
      intro acc hacc
      by_cases h : a.id = instanceId
      · simp only [findIndexAux, if_pos h]
        constructor
        · intro hEq; omega
        · intro hall
          exact absurd h (hall a (by simp))
      · simp only [findIndexAux, if_neg h]
        rw [ih (acc + 1) (by omega)]
        simp [h]

/-- findIndexAux either signals absence with -1 or returns an index at
least as large as the accumulator. -/
theorem findIndexAux_cases (instanceId : String) :
    ∀ (l : List Instance) (acc : Int),
      findIndexAux instanceId l acc = -1 ∨ acc ≤ findIndexAux instanceId l acc := by
  intro l
  induction l with
  | nil => intro acc; left; rfl
  | cons a t ih =>
      intro acc
      by_cases h : a.id = instanceId
      · right; simp [findIndexAux, if_pos h]
      · rcases ih (acc + 1) with h1 | h1
        · left; simpa [findIndexAux, if_neg h] using h1
        · right
          simp only [findIndexAux, if_neg h]
          omega

/-- findIndex is positive exactly when some live instance carries the id. -/
theorem findIndex_pos_iff (l : List Instance) (instanceId : String) :
    findIndex l instanceId > -1 ↔ ∃ i ∈ l, i.id = instanceId := by
  unfold findIndex
  rcases findIndexAux_cases instanceId l 0 with h | h
  · rw [h]
    rw [findIndexAux_eq_neg_one_iff instanceId l 0 (by omega)] at h
    simp only [show ¬((-1 : Int) > -1) by omega, false_iff]
    rintro ⟨i, hi, hid⟩
    exact h i hi hid
  · constructor
    · intro _
      by_contra hne
      push_neg at hne
      have := (findIndexAux_eq_neg_one_iff instanceId l 0 (by omega)).2 hne
      omega
    · intro _; omega

/-- Pointwise value of insertAll: the last inserted installation with the
key wins, otherwise the original map is consulted. -/
theorem insertAll_apply (l : List Installation) :
    ∀ (m : String → Option Installation) (k : String),
      insertAll m l k =
        match lastWith l k with
        | some v => some v
        | none => m k := by
  induction l with
  | nil => intro m k; rfl
  | cons a t ih =>
      intro m k
      show insertAll (mapInsert m a.id a) t k = _
      rw [ih]
      cases h : lastWith t k with
      | some v => simp [lastWith, h]
      | none =>
          by_cases hk : a.id = k
          · simp [lastWith, h, mapInsert, hk]
          · have hk2 : ¬(k = a.id) := fun hx => hk hx.symm
            simp [lastWith, h, mapInsert, hk, hk2]

/-- Inserting the same list of installations twice gives the same map as
inserting it once. -/
theorem insertAll_idem (m : String → Option Installation) (l : List Installation) :
    insertAll (insertAll m l) l = insertAll m l := by
  funext k
  rw [insertAll_apply, insertAll_apply]
  cases h : lastWith l k <;> simp

/-- C7: applyPending (DefaultProvider.Update) is idempotent: running it
twice in a row with no intervening register or remove calls yields the
same live installation map and the same live instance list as running it
once. -/
theorem C7_update_idempotent (p : DefaultProvider) :
    (p.Update.Update).Installations = p.Update.Installations ∧
      (p.Update.Update).Instances = p.Update.Instances := by
  constructor
  · simp [DefaultProvider.Update, DefaultProvider.RemoveInstances,
      DefaultProvider.AddNewInstances, DefaultProvider.RemoveInstallations,
      DefaultProvider.AddNewInstallations, insertAll_idem]
  · simp [DefaultProvider.Update, DefaultProvider.RemoveInstances,
      DefaultProvider.AddNewInstances, DefaultProvider.RemoveInstallations,
      DefaultProvider.AddNewInstallations]

/-- C6: removing an id that is not in the currently applied set fails with
the not-found error and leaves the provider state unchanged; removing a
live id succeeds and only appends the id to the pending-remove staging
list, leaving the live sets untouched. -/
theorem C6_removal_notfound_safe (p : DefaultProvider) (targetId : String) :
    ((∀ i ∈ p.Instances, i.id ≠ targetId) →
        p.RemoveInstance targetId = (p, some "instance not found"))
    ∧ ((∃ i ∈ p.Instances, i.id = targetId) →
        p.RemoveInstance targetId =
          ({ p with instancesToRemove := p.instancesToRemove ++ [targetId] }, none))
    ∧ (p.Installations targetId = none →
        p.RemoveInstallation targetId = (p, some "installation not found"))
    ∧ (∀ inst, p.Installations targetId = some inst →
        p.RemoveInstallation targetId =
          ({ p with installationsToRemove := p.installationsToRemove ++ [targetId] },
            none)) := by
  refine ⟨?_, ?_, ?_, ?_⟩
  · intro h
    unfold DefaultProvider.RemoveInstance
    rw [if_neg]
    rw [findIndex_pos_iff]
    rintro ⟨i, hi, hid⟩
    exact h i hi hid
  · intro h
    unfold DefaultProvider.RemoveInstance
    rw [if_pos ((findIndex_pos_iff p.Instances targetId).2 h)]
  · intro h
    simp [DefaultProvider.RemoveInstallation, h]
  · intro inst h
    simp [DefaultProvider.RemoveInstallation, h]

/-- Witness for C6 at concrete states: a missing id is rejected without a
state change, a live instance and a live installation are staged. -/
theorem C6_removal_notfound_safe_witness :
    c6Provider.RemoveInstance "missing" = (c6Provider, some "instance not found")
    ∧ c6Provider.RemoveInstance "i-1" =
        ({ c6Provider with
            instancesToRemove := c6Provider.instancesToRemove ++ ["i-1"] }, none)
    ∧ c6Provider.RemoveInstallation "inst-1" =
        ({ c6Provider with
            installationsToRemove := c6Provider.installationsToRemove ++ ["inst-1"] },
          none) :=
  ⟨(C6_removal_notfound_safe c6Provider "missing").1 (by decide),
    (C6_removal_notfound_safe c6Provider "i-1").2.1 (by decide),
    (C6_removal_notfound_safe c6Provider "inst-1").2.2.2 sampleInstallation (by decide)⟩

/-- C1: evaluation of the code at the failing input.  After registering an
installation and applying the staged mutations, a successful
RemoveInstallation followed by Update leaves the installation in the live
map and leaves the pending-add staging list non-empty, because
AddNewInstallations never clears newInstallations. -/
theorem C1_update_residual :
    (c1AfterFirstUpdate.RemoveInstallation "inst-1").2 = none
    ∧ c1AfterSecondUpdate.Installations "inst-1" = some sampleInstallation
    ∧ c1AfterSecondUpdate.newInstallations = [sampleInstallation]
    ∧ c1AfterSecondUpdate.instancesToRemove = []
    ∧ c1AfterSecondUpdate.installationsToRemove = []
    ∧ c1AfterSecondUpdate.newInstances = [] := by
  decide

/-- Counterexample for C2: the RequestAction actually wired into the final
provider (DefaultProvider.RequestAction, inherited unchanged by the
GiphyProvider) accepts the unsupported actionId toggle, returns status
Pending with a nil error, and enqueues a PendingAction, contradicting the
claimed synchronous Failed response with an unchanged queue. -/
theorem C2_admission_counterexample :
    (DefaultProvider.New.RequestAction sampleInstance otherRequest).1 =
      (ActionRequestStatus.pending, none)
    ∧ ((DefaultProvider.New.RequestAction sampleInstance otherRequest).2).actionChannel =
        [⟨otherRequest, sampleInstance⟩] := by
  decide

/-- C2 as amended: the synchronous admission split is implemented by the
earlier-generation Handler.RequestAction, where actionId search enqueues
exactly one pending action and returns Pending, and any other actionId
returns Failed with the error "action not supported" leaving the queue
unchanged; the final-generation DefaultProvider.RequestAction instead
enqueues every request and returns Pending. -/
theorem C2_request_action_admission (h : Handler) (p : DefaultProvider)
    (inst : Instance) (req : ActionRequest) :
    (req.actionID = "search" →
        h.RequestAction inst req =
          ((ActionRequestStatus.pending, none),
            { h with actionChannel := h.actionChannel ++ [⟨req, inst⟩] }))
    ∧ (req.actionID ≠ "search" →
        h.RequestAction inst req =
          ((ActionRequestStatus.failed, some "action not supported"), h))
    ∧ p.RequestAction inst req =
        ((ActionRequestStatus.pending, none),
          { p with actionChannel := p.actionChannel ++ [⟨req, inst⟩] }) := by
  refine ⟨?_, ?_, rfl⟩
  · intro hs
    simp [Handler.RequestAction, hs]
  · intro hs
    simp [Handler.RequestAction, hs]

/-- Minimal earlier-generation handler state. -/
def c2Handler : Handler :=
  { actionChannel := [], instances := [], newInstances := [],
    installations := sampleInstalls }

/-- Witness for C2 at concrete inputs: search is enqueued with status
Pending, toggle is rejected synchronously with an untouched channel. -/
theorem C2_request_action_admission_witness :
    c2Handler.RequestAction sampleInstance searchRequest =
      ((ActionRequestStatus.pending, none),
        { c2Handler with
            actionChannel := c2Handler.actionChannel ++ [⟨searchRequest, sampleInstance⟩] })
    ∧ c2Handler.RequestAction sampleInstance otherRequest =
        ((ActionRequestStatus.failed, some "action not supported"), c2Handler) :=
  ⟨(C2_request_action_admission c2Handler DefaultProvider.New sampleInstance
      searchRequest).1 (by decide),
    (C2_request_action_admission c2Handler DefaultProvider.New sampleInstance
      otherRequest).2.1 (by decide)⟩

/-- C4: the RemoveInstallation of the service always leaves the provider in the
state produced by the Registry removal, regardless of the database
outcome; a database error is returned to the caller while the Registry
removal of a live installation remains staged; a Registry NotFound is
tolerated and does not fail the operation. -/
theorem C4_remove_registry_first (p : DefaultProvider)
    (dbRemove : String → Except String Unit) (installationId : String) :
    ((DefaultConnectorService.RemoveInstallation p dbRemove installationId).1 =
        (p.RemoveInstallation installationId).1)
    ∧ (∀ e, dbRemove installationId = Except.error e →
        (DefaultConnectorService.RemoveInstallation p dbRemove installationId).2 =
          some e)
    ∧ (∀ u, dbRemove installationId = Except.ok u →
        (DefaultConnectorService.RemoveInstallation p dbRemove installationId).2 =
          none)
    ∧ (p.Installations installationId = none →
        (DefaultConnectorService.RemoveInstallation p dbRemove installationId).1 = p)
    ∧ (∀ inst, p.Installations installationId = some inst →
        (DefaultConnectorService.RemoveInstallation p dbRemove
            installationId).1.installationsToRemove =
          p.installationsToRemove ++ [installationId]) := by
  refine ⟨?_, ?_, ?_, ?_, ?_⟩
  · cases hd : dbRemove installationId <;>
      simp [DefaultConnectorService.RemoveInstallation, hd]
  · intro e he
    simp [DefaultConnectorService.RemoveInstallation, he]
  · intro u hu
    simp [DefaultConnectorService.RemoveInstallation, hu]
  · intro hmiss
    cases hd : dbRemove installationId <;>
      simp [DefaultConnectorService.RemoveInstallation, hd,
        DefaultProvider.RemoveInstallation, hmiss]
  · intro inst hlive
    cases hd : dbRemove installationId <;>
      simp [DefaultConnectorService.RemoveInstallation, hd,
        DefaultProvider.RemoveInstallation, hlive]

/-- Database stub whose delete always fails. -/
def failingDb : String → Except String Unit := fun _ => Except.error "db down"

/-- Witness for C4 at a concrete state: with a failing database delete the
error is returned to the caller and the live installation is nevertheless
staged for removal in the Registry. -/
theorem C4_remove_registry_first_witness :
    (DefaultConnectorService.RemoveInstallation c6Provider failingDb "inst-1").2 =
      some "db down"
    ∧ (DefaultConnectorService.RemoveInstallation c6Provider failingDb
        "inst-1").1.installationsToRemove =
        c6Provider.installationsToRemove ++ ["inst-1"] :=
  ⟨(C4_remove_registry_first c6Provider failingDb "inst-1").2.1 "db down" rfl,
    (C4_remove_registry_first c6Provider failingDb "inst-1").2.2.2.2 sampleInstallation
      (by decide)⟩

/-- C5: when the database lookup by thing ID misses, PerformAction returns
a structured Failed ActionResponse with the text "thing ID was not found
at connector" and a nil error, and the HTTP layer therefore answers 200
with that JSON body (response ID filled from the request). -/
theorem C5_unknown_thing_id (p : DefaultProvider)
    (lookup : String → Option Instance) (req : ActionRequest)
    (h : lookup req.thingID = none) :
    PerformActionHandler p lookup req =
      HttpOut.jsonResp 200
        { id := req.id, status := ActionRequestStatus.failed,
          error := "thing ID was not found at connector" }
    ∧ (DefaultConnectorService.PerformAction p lookup req).1.2 = none := by
  constructor
  · simp [PerformActionHandler, DefaultConnectorService.PerformAction, h]
  · simp [DefaultConnectorService.PerformAction, h]

/-- Witness for C5: a concrete request against an empty database is
answered 200 with the structured failure body and no error. -/
theorem C5_unknown_thing_id_witness :
    PerformActionHandler DefaultProvider.New (fun _ => none) searchRequest =
      HttpOut.jsonResp 200
        { id := searchRequest.id, status := ActionRequestStatus.failed,
          error := "thing ID was not found at connector" }
    ∧ (DefaultConnectorService.PerformAction DefaultProvider.New (fun _ => none)
        searchRequest).1.2 = none :=
  C5_unknown_thing_id DefaultProvider.New (fun _ => none) searchRequest rfl

/-- C9: in a polling cycle an instance with no thing mapping is skipped,
an instance whose installation is missing or whose giphy_api_key entry is
absent is skipped, a skipped instance never aborts the cycle (the events
of the other instances are unaffected), and a successful fetch emits
exactly one property-update event. -/
theorem C9_poll_skip_continue (installations : String → Option Installation)
    (randomOracle : String → Except String String) (inst : Instance)
    (xs ys : List Instance) :
    (inst.thingMapping = [] →
        pollInstance installations randomOracle inst = none)
    ∧ (installations inst.installationID = none →
        pollInstance installations randomOracle inst = none)
    ∧ (∀ i, installations inst.installationID = some i →
        i.GetConfig "giphy_api_key" = none →
        pollInstance installations randomOracle inst = none)
    ∧ (pollInstance installations randomOracle inst = none →
        (xs ++ inst :: ys).filterMap (pollInstance installations randomOracle) =
          xs.filterMap (pollInstance installations randomOracle) ++
            ys.filterMap (pollInstance installations randomOracle))
    ∧ (∀ u tm rest, inst.thingMapping = tm :: rest →
        getRandomGif installations randomOracle inst = Except.ok u →
        pollInstance installations randomOracle inst =
          some
            { actionEvent := none,
              propertyUpdateEvent :=
                some
                  { instanceId := inst.id, thingId := tm.thingID,
                    componentId := RandomComponentId,
                    propertyId := RandomPropertyId, value := u } }) := by
  refine ⟨?_, ?_, ?_, ?_, ?_⟩
  · intro h
    simp [pollInstance, h]
  · intro h
    cases hm : inst.thingMapping with
    | nil => simp [pollInstance, hm]
    | cons tm rest => simp [pollInstance, hm, getRandomGif, setApiKey, h]
  · intro i h1 h2
    cases hm : inst.thingMapping with
    | nil => simp [pollInstance, hm]
    | cons tm rest => simp [pollInstance, hm, getRandomGif, setApiKey, h1, h2]
  · intro h
    simp [List.filterMap_append, List.filterMap_cons, h]
  · intro u tm rest h1 h2
    simp [pollInstance, h1, h2]

/-- Witness for C9 at concrete inputs: the unprovisioned instance is
skipped, the provisioned one yields exactly one property update, and the
skip does not disturb the events of the surrounding instances. -/
theorem C9_poll_skip_continue_witness :
    pollInstance sampleInstalls okRandomOracle bareInstance = none
    ∧ pollInstance sampleInstalls okRandomOracle sampleInstance =
        some
          { actionEvent := none,
            propertyUpdateEvent :=
              some
                { instanceId := sampleInstance.id,
                  thingId := sampleMapping.thingID,
                  componentId := RandomComponentId,
                  propertyId := RandomPropertyId, value := "gif-1" } }
    ∧ ([sampleInstance] ++ bareInstance :: [sampleInstance]).filterMap
          (pollInstance sampleInstalls okRandomOracle) =
        [sampleInstance].filterMap (pollInstance sampleInstalls okRandomOracle) ++
          [sampleInstance].filterMap (pollInstance sampleInstalls okRandomOracle) := by
  have h1 :=
    (C9_poll_skip_continue sampleInstalls okRandomOracle bareInstance [] []).1 rfl
  refine ⟨h1, ?_, ?_⟩
  · exact
      (C9_poll_skip_continue sampleInstalls okRandomOracle sampleInstance [] []).2.2.2.2
        "gif-1" sampleMapping [] rfl rfl
  · exact
      (C9_poll_skip_continue sampleInstalls okRandomOracle bareInstance
        [sampleInstance] [sampleInstance]).2.2.2.1 h1

/-- Counterexample for C3: a dequeued search action whose instance
snapshot has no thing mapping and whose search succeeds produces zero
emissions, because the Go handler panics reading ThingMapping[0] before
sending the event. -/
theorem C3_zero_emission_counterexample :
    actionStep sampleInstalls okSearchOracle ⟨searchRequest, bareInstance⟩ = none := by
  decide

/-- C3 as amended: for every dequeued action, unless the search succeeds
while the instance snapshot has no thing mapping (where the handler
panics and emits nothing), exactly one update event is emitted, it carries
a terminal action status, a Completed status is paired with exactly one
property update, and each failure class yields Failed with its message. -/
theorem C3_terminal_emission (installations : String → Option Installation)
    (searchOracle : String → String → Except String (List String))
    (pa : PendingAction)
    (hsafe : pa.Instance.thingMapping ≠ [] ∨
      ¬(pa.ActionRequest.actionID = "search" ∧
        ∃ u, getSearchResult installations searchOracle pa.Instance
            (paramGet pa.ActionRequest.parameters "keyword") = Except.ok u)) :
    ∃ ev ae, actionStep installations searchOracle pa = some ev
      ∧ ev.actionEvent = some ae
      ∧ (ae.response.status = ActionRequestStatus.completed ∨
          ae.response.status = ActionRequestStatus.failed)
      ∧ (ae.response.status = ActionRequestStatus.completed ↔
          ev.propertyUpdateEvent.isSome = true)
      ∧ (pa.ActionRequest.actionID ≠ "search" →
          ae.response.status = ActionRequestStatus.failed ∧
            ae.response.error = "Action not supported")
      ∧ (∀ e, pa.ActionRequest.actionID = "search" →
          getSearchResult installations searchOracle pa.Instance
              (paramGet pa.ActionRequest.parameters "keyword") = Except.error e →
          ae.response.status = ActionRequestStatus.failed ∧ ae.response.error = e)
      ∧ (∀ u, pa.ActionRequest.actionID = "search" →
          getSearchResult installations searchOracle pa.Instance
              (paramGet pa.ActionRequest.parameters "keyword") = Except.ok u →
          ae.response.status = ActionRequestStatus.completed ∧
            ev.propertyUpdateEvent ≠ none) := by
  by_cases hA : pa.ActionRequest.actionID = "search"
  · cases hres : getSearchResult installations searchOracle pa.Instance
        (paramGet pa.ActionRequest.parameters "keyword") with
    | error e =>
        refine
          ⟨⟨some
              { instanceId := pa.Instance.id, requestId := pa.ActionRequest.id,
                response :=
                  { id := "", status := ActionRequestStatus.failed, error := e } },
            none⟩, _, ?_, rfl, Or.inr rfl, by simp, fun hns => absurd hA hns, ?_, ?_⟩
        · simp [actionStep, hA, hres]
        · intro e2 _ herr
          cases herr
          exact ⟨rfl, rfl⟩
        · intro u _ hok
          exact absurd hok (by simp)
    | ok u =>
        cases hm : pa.Instance.thingMapping with
        | nil =>
            rcases hsafe with h1 | h2
            · exact absurd hm h1
            · exact absurd ⟨hA, u, hres⟩ h2
        | cons tm rest =>
            refine
              ⟨⟨some
                  { instanceId := pa.Instance.id, requestId := pa.ActionRequest.id,
                    response :=
                      { id := "", status := ActionRequestStatus.completed,
                        error := "" } },
                some
                  { thingId := tm.thingID, instanceId := pa.Instance.id,
                    componentId := SearchComponentId,
                    propertyId := SearchPropertyId, value := u }⟩, _, ?_, rfl,
                Or.inl rfl, by simp, fun hns => absurd hA hns, ?_, ?_⟩
            · simp [actionStep, hA, hres, hm]
            · intro e _ herr
              exact absurd herr (by simp)
            · intro u2 _ _
              exact ⟨rfl, by simp⟩
  · refine
      ⟨⟨some
          { instanceId := pa.Instance.id, requestId := pa.ActionRequest.id,
            response :=
              { id := "", status := ActionRequestStatus.failed,
                error := "Action not supported" } },
        none⟩, _, ?_, rfl, Or.inr rfl, by simp, fun _ => ⟨rfl, rfl⟩,
        fun e hs _ => absurd hs hA, fun u hs _ => absurd hs hA⟩
    simp [actionStep, hA]

/-- Witness for C3 at a concrete input: a search action on a fully
provisioned instance yields exactly one event with a terminal status, with
Completed paired with a property update. -/
theorem C3_terminal_emission_witness :
    ∃ ev ae,
      actionStep sampleInstalls okSearchOracle ⟨searchRequest, sampleInstance⟩ =
        some ev
      ∧ ev.actionEvent = some ae
      ∧ (ae.response.status = ActionRequestStatus.completed ∨
          ae.response.status = ActionRequestStatus.failed)
      ∧ (ae.response.status = ActionRequestStatus.completed ↔
          ev.propertyUpdateEvent.isSome = true) := by
  obtain ⟨ev, ae, h1, h2, h3, h4, _⟩ :=
    C3_terminal_emission sampleInstalls okSearchOracle
      ⟨searchRequest, sampleInstance⟩ (Or.inl (by decide))
  exact ⟨ev, ae, h1, h2, h3, h4⟩

/-- C10: the success path of the action handler reads element 0 of the
thing-mapping list without an emptiness check, so it is well-defined
exactly when the snapshot has at least one mapping; admission through
DefaultProvider.RequestAction enqueues any instance without re-checking
that precondition, unlike the polling loop, which skips an instance with
no mapping. -/
theorem C10_unguarded_thing_mapping (installations : String → Option Installation)
    (searchOracle : String → String → Except String (List String))
    (randomOracle : String → Except String String) (pa : PendingAction)
    (p : DefaultProvider) (inst : Instance) (req : ActionRequest) :
    (∀ u, pa.ActionRequest.actionID = "search" →
        getSearchResult installations searchOracle pa.Instance
            (paramGet pa.ActionRequest.parameters "keyword") = Except.ok u →
        pa.Instance.thingMapping = [] →
        actionStep installations searchOracle pa = none)
    ∧ (pa.Instance.thingMapping ≠ [] →
        (actionStep installations searchOracle pa).isSome = true)
    ∧ p.RequestAction inst req =
        ((ActionRequestStatus.pending, none),
          { p with actionChannel := p.actionChannel ++ [⟨req, inst⟩] })
    ∧ (inst.thingMapping = [] →
        pollInstance installations randomOracle inst = none) := by
  refine ⟨?_, ?_, rfl, ?_⟩
  · intro u hA hok hm
    simp [actionStep, hA, hok, hm]
  · intro hm
    by_cases hA : pa.ActionRequest.actionID = "search"
    · cases hres : getSearchResult installations searchOracle pa.Instance
          (paramGet pa.ActionRequest.parameters "keyword") with
      | error e => simp [actionStep, hA, hres]
      | ok u =>
          cases hm2 : pa.Instance.thingMapping with
          | nil => exact absurd hm2 hm
          | cons tm rest => simp [actionStep, hA, hres, hm2]
    · simp [actionStep, hA]
  · intro h
    simp [pollInstance, h]

/-- Witness for C10 at concrete inputs: the panic case evaluates to no
emission, a non-empty mapping always emits, and the polling loop skips the
unprovisioned instance. -/
theorem C10_unguarded_thing_mapping_witness :
    actionStep sampleInstalls okSearchOracle ⟨searchRequest, bareInstance⟩ = none
    ∧ (actionStep sampleInstalls okSearchOracle
        ⟨searchRequest, sampleInstance⟩).isSome = true
    ∧ pollInstance sampleInstalls okRandomOracle bareInstance = none :=
  ⟨(C10_unguarded_thing_mapping sampleInstalls okSearchOracle okRandomOracle
      ⟨searchRequest, bareInstance⟩ DefaultProvider.New bareInstance
      searchRequest).1 "url-1" rfl rfl rfl,
    (C10_unguarded_thing_mapping sampleInstalls okSearchOracle okRandomOracle
      ⟨searchRequest, sampleInstance⟩ DefaultProvider.New sampleInstance
      searchRequest).2.1 (by decide),
    (C10_unguarded_thing_mapping sampleInstalls okSearchOracle okRandomOracle
      ⟨searchRequest, bareInstance⟩ DefaultProvider.New bareInstance
      searchRequest).2.2.2 rfl⟩

/-- SignablePayload fails with the missing-header error exactly when the
Date header is absent or empty. -/
theorem signablePayload_missing_date (method scheme host uri : String)
    (headers : List (String × String)) (body : String)
    (h : headerGet headers "Date" = "") :
    SignablePayload method scheme host uri headers body =
      Except.error CryptoErr.missingHeader := by
  simp [SignablePayload, headersFragment, signedHeaderKeys, h]

/-- Counterexample for C8: a request with neither a Signature nor a Date
header is answered MISSING_HEADER, not the BAD_SIGNATURE the claim
requires for an absent Signature header (the empty string decodes as
valid base64, so the Date check fires first). -/
theorem C8_missing_both_counterexample :
    headerGet (noHeadersReq.headers) "Signature" = ""
    ∧ ServeHTTP (fun _ _ => true) DefaultValidationPreProcessor noHeadersReq =
        HandlerResult.response "MISSING_HEADER" 400
    ∧ ServeHTTP (fun _ _ => true) DefaultValidationPreProcessor noHeadersReq ≠
        HandlerResult.response "BAD_SIGNATURE" 400 := by
  decide

/-- C8 as amended: the checks run in source order.  A Signature header
that fails base64 decoding is answered BAD_SIGNATURE 400 even when Date is
absent; otherwise an absent Date header is answered MISSING_HEADER 400
even when the Signature header is absent or wrong; otherwise a signature
that does not verify against the canonical payload under the fixed key is
answered BAD_SIGNATURE 400; the wrapped handler runs only when decoding,
the Date header and verification all succeed. -/
theorem C8_signature_validation (verify : String → List Nat → Bool)
    (pre : HttpRequest → ValidationParameters) (r : HttpRequest) :
    (base64Decode (headerGet r.headers "Signature") = none →
        ServeHTTP verify pre r = HandlerResult.response "BAD_SIGNATURE" 400)
    ∧ (∀ sig, base64Decode (headerGet r.headers "Signature") = some sig →
        headerGet r.headers "Date" = "" →
        ServeHTTP verify pre r = HandlerResult.response "MISSING_HEADER" 400)
    ∧ (∀ sig payload,
        base64Decode (headerGet r.headers "Signature") = some sig →
        SignablePayload r.method (pre r).Scheme (pre r).Host (pre r).RequestURI
            r.headers r.body = Except.ok payload →
        verify payload sig = false →
        ServeHTTP verify pre r = HandlerResult.response "BAD_SIGNATURE" 400)
    ∧ (∀ b, ServeHTTP verify pre r = HandlerResult.next b →
        headerGet r.headers "Date" ≠ "" ∧
          ∃ sig payload,
            base64Decode (headerGet r.headers "Signature") = some sig ∧
              SignablePayload r.method (pre r).Scheme (pre r).Host
                  (pre r).RequestURI r.headers r.body = Except.ok payload ∧
                verify payload sig = true) := by
  refine ⟨?_, ?_, ?_, ?_⟩
  · intro h
    simp [ServeHTTP, h]
  · intro sig hdec hdate
    simp [ServeHTTP, hdec,
      signablePayload_missing_date r.method (pre r).Scheme (pre r).Host
        (pre r).RequestURI r.headers r.body hdate]
  · intro sig payload hdec hok hv
    simp [ServeHTTP, hdec, hok, hv]
  · intro b hnext
    cases hdec : base64Decode (headerGet r.headers "Signature") with
    | none => simp [ServeHTTP, hdec] at hnext
    | some sig =>
        cases hpay : SignablePayload r.method (pre r).Scheme (pre r).Host
            (pre r).RequestURI r.headers r.body with
        | error e =>
            cases e
            simp [ServeHTTP, hdec, hpay] at hnext
        | ok payload =>
            cases hv : verify payload sig with
            | false => simp [ServeHTTP, hdec, hpay, hv] at hnext
            | true =>
                refine ⟨?_, sig, payload, rfl, rfl, hv⟩
                intro hd
                rw [signablePayload_missing_date r.method (pre r).Scheme (pre r).Host
                    (pre r).RequestURI r.headers r.body hd] at hpay
                exact absurd hpay (by simp)

/-- Witness for C8 at concrete requests: malformed base64 beats the
missing Date header, an empty header set is rejected for the missing Date,
and a well-formed request failing verification is rejected with
BAD_SIGNATURE. -/
theorem C8_signature_validation_witness :
    ServeHTTP (fun _ _ => true) DefaultValidationPreProcessor sigBadReq =
      HandlerResult.response "BAD_SIGNATURE" 400
    ∧ ServeHTTP (fun _ _ => true) DefaultValidationPreProcessor noHeadersReq =
        HandlerResult.response "MISSING_HEADER" 400
    ∧ ServeHTTP (fun _ _ => false) DefaultValidationPreProcessor dateReq =
        HandlerResult.response "BAD_SIGNATURE" 400 :=
  ⟨(C8_signature_validation (fun _ _ => true) DefaultValidationPreProcessor
      sigBadReq).1 rfl,
    (C8_signature_validation (fun _ _ => true) DefaultValidationPreProcessor
      noHeadersReq).2.1 [] rfl rfl,
    (C8_signature_validation (fun _ _ => false) DefaultValidationPreProcessor
      dateReq).2.2.1 []
      "(method):POST\r\n(url):https://h/x\r\n(Date):today\r\n(body):" rfl rfl rfl⟩

end GiphyConn
